import Mathlib

/-!
Shallow embedding of an e-commerce product-video generator app:
the prompt-construction function and submit/poll/fetch pipeline
(`generateVideo` in the video-service module) and the form-state
logic of `PromptForm.tsx` (submit gating, tooltip, image collector).
Strings, lists and records mirror the TypeScript source; the external
service, transport and browser APIs are modelled as an oracle record.
-/

namespace EcomVideo

/-- The `VideoStyle` enum from `types.ts`. -/
inductive VideoStyle where
  | MODERN
  | MINIMALIST
  | ENERGETIC
  | INFORMATIONAL
deriving DecidableEq, Repr

/-- The string value carried by each `VideoStyle` enum member. -/
def VideoStyle.value : VideoStyle → String
  | .MODERN => "Sleek & Modern"
  | .MINIMALIST => "Minimalist"
  | .ENERGETIC => "Energetic & Fast-Paced"
  | .INFORMATIONAL => "Informational"

/-- The `VeoModel` enum from `types.ts`. -/
inductive VeoModel where
  | VEO_FAST
  | VEO
deriving DecidableEq, Repr

/-- The string value carried by each `VeoModel` enum member. -/
def VeoModel.value : VeoModel → String
  | .VEO_FAST => "veo-3.1-fast-generate-preview"
  | .VEO => "veo-3.1-generate-preview"

/-- The `AspectRatio` enum from `types.ts`. -/
inductive AspectRatio where
  | LANDSCAPE
  | PORTRAIT
deriving DecidableEq, Repr

/-- The `Resolution` enum from `types.ts`. -/
inductive Resolution where
  | P720
  | P1080
deriving DecidableEq, Repr

/-- `ImageFile` from `types.ts`: a raw file handle (name and MIME type are
the fields the pipeline reads) together with its base64-encoded content. -/
structure ImageFile where
  fileName : String
  fileType : String
  base64 : String
deriving DecidableEq, Repr

/-- `GenerateVideoParams` from `types.ts` (the deprecated optional fields
`prompt`, `mode`, `inputVideoObject` are unused by the pipeline and the
form and are omitted). -/
structure GenerateVideoParams where
  productName : String
  keyFeatures : String
  targetAudience : String
  videoStyle : VideoStyle
  productImages : List ImageFile
  model : VeoModel
  aspectRatio : AspectRatio
  resolution : Resolution
deriving DecidableEq, Repr

/-- JS `String.prototype.split('\n')` on the underlying character list:
`"".split('\n')` is `[""]`, and each newline separates two (possibly empty)
segments. -/
def splitNlChars : List Char → List (List Char)
  | [] => [[]]
  | c :: cs =>
    let r := splitNlChars cs
    if c = '\n' then [] :: r
    else
      match r with
      | [] => [[c]]
      | h :: t => (c :: h) :: t

/-- JS `String.prototype.split('\n')`, lifted to `String`. -/
def jsSplitNl (s : String) : List String :=
  (splitNlChars s.data).map (fun l => ⟨l⟩)

/-- JS `String.prototype.trim`: drop leading and trailing whitespace. -/
def jsTrim (s : String) : String :=
  ⟨(((s.data.dropWhile Char.isWhitespace).reverse.dropWhile
      Char.isWhitespace).reverse)⟩

/-- JS `String.prototype.toLowerCase` (ASCII letters, which is all the style
enum values contain). -/
def jsToLower (s : String) : String :=
  ⟨s.data.map Char.toLower⟩

/-- JS `Array.prototype.join('\n')`. -/
def joinNl : List String → String
  | [] => ""
  | [x] => x
  | x :: y :: xs => x ++ "\n" ++ joinNl (y :: xs)

/-- The key-features normalisation inside `constructPrompt`:
`keyFeatures.split('\n').map(line => line.trim()).filter(line => line).join('\n')`. -/
def processFeatures (keyFeatures : String) : String :=
  joinNl (((jsSplitNl keyFeatures).map jsTrim).filter (fun line => line ≠ ""))

/-- `constructPrompt` from the video-service module: JS string truthiness
(`if (params.targetAudience)`, `if (params.keyFeatures)`) is non-emptiness
of the string. -/
def constructPrompt (params : GenerateVideoParams) : String :=
  let p1 := "Create a " ++ jsToLower params.videoStyle.value ++
    ", 15-second e-commerce product video for the '" ++ params.productName ++ "'.\n\n"
  let p2 :=
    if params.targetAudience ≠ "" then
      "The video should be dynamic and engaging, targeting " ++
        params.targetAudience ++ ".\n\n"
    else ""
  let p3 :=
    if params.keyFeatures ≠ "" then
      "Showcase the following key features:\n" ++
        processFeatures params.keyFeatures ++ "\n\n"
    else ""
  p1 ++ p2 ++ p3 ++
    "Use smooth transitions, clean graphics, and upbeat, modern background music. The video should feel professional and high-quality.\n\n" ++
    "Use the provided images as strong visual references for the product's appearance and functionality."

/-- The opening sentence of the prompt, as a block of its own. -/
def openingSentence (params : GenerateVideoParams) : String :=
  "Create a " ++ jsToLower params.videoStyle.value ++
    ", 15-second e-commerce product video for the '" ++ params.productName ++ "'.\n\n"

/-- The audience sentence of the prompt. -/
def audienceSentence (targetAudience : String) : String :=
  "The video should be dynamic and engaging, targeting " ++ targetAudience ++ ".\n\n"

/-- The conditional audience block of the prompt. -/
def audiencePart (params : GenerateVideoParams) : String :=
  if params.targetAudience ≠ "" then audienceSentence params.targetAudience else ""

/-- The key-features block of the prompt: fixed lead-in plus normalised lines. -/
def featuresBlock (keyFeatures : String) : String :=
  "Showcase the following key features:\n" ++ processFeatures keyFeatures ++ "\n\n"

/-- The conditional key-features block of the prompt. -/
def featuresPart (params : GenerateVideoParams) : String :=
  if params.keyFeatures ≠ "" then featuresBlock params.keyFeatures else ""

/-- The two fixed closing guidance sentences of the prompt. -/
def closingPart : String :=
  "Use smooth transitions, clean graphics, and upbeat, modern background music. The video should feel professional and high-quality.\n\n" ++
    "Use the provided images as strong visual references for the product's appearance and functionality."

/-! ### PromptForm derived state (`PromptForm.tsx` lines 221-231) -/

/-- `isSubmitDisabled = !productName.trim() || productImages.length === 0`. -/
def isSubmitDisabled (productName : String) (productImages : List ImageFile) : Bool :=
  jsTrim productName == "" || productImages.length == 0

/-- The `tooltipText` computation of `PromptForm.tsx`: empty unless submission
is disabled, then one of three fixed messages. -/
def tooltipText (productName : String) (productImages : List ImageFile) : String :=
  if isSubmitDisabled productName productImages then
    if jsTrim productName == "" && productImages.length == 0 then
      "Please enter a product name and upload at least one image."
    else if jsTrim productName == "" then
      "Please enter a product name."
    else
      "Please upload at least one product image."
  else ""

/-! ### The image Collector (`PromptForm.tsx` lines 305-323) -/

/-- Removal by index: `imgs.filter((_, i) => i !== index)`. -/
def removeImage (imgs : List ImageFile) (index : Nat) : List ImageFile :=
  (imgs.enum.filter (fun p => p.1 ≠ index)).map Prod.snd

/-- The Collector's operations on the product-image list. -/
inductive CollectorOp where
  | add (img : ImageFile)
  | remove (index : Nat)

/-- One Collector state transition: the add control is rendered only when
`productImages.length < 6` (so adding at six images is unavailable and the
list is unchanged); adding appends (`[...imgs, img]`); removal filters by
index. -/
def collectorStep (imgs : List ImageFile) : CollectorOp → List ImageFile
  | .add img => if imgs.length < 6 then imgs ++ [img] else imgs
  | .remove index => removeImage imgs index

/-! ### The submission pipeline (`generateVideo`) -/

/-- The service's video descriptor payload: `video.uri` may be absent. -/
structure VideoObj where
  uri : Option String
deriving DecidableEq, Repr

/-- One generated-video descriptor: its `video` field may be absent. -/
structure GeneratedVideo where
  video : Option VideoObj
deriving DecidableEq, Repr

/-- The response payload of a completed operation; `generatedVideos` may be
absent. -/
structure OperationResponse where
  generatedVideos : Option (List GeneratedVideo)
deriving DecidableEq, Repr

/-- An operation handle: completion flag plus optional response payload. -/
structure Operation where
  done : Bool
  response : Option OperationResponse
deriving DecidableEq, Repr

/-- A transport response for the asset fetch. -/
structure FetchResponse where
  ok : Bool
  status : Nat
  statusText : String
  blobData : String
deriving DecidableEq, Repr

/-- The external world seen by `generateVideo`: the submit call's result, the
result of the n-th `getVideosOperation` re-query, the transport fetch, the
`decodeURIComponent` and `URL.createObjectURL` browser functions, and the
`process.env.API_KEY` credential. -/
structure Env where
  submitResult : Operation
  pollResults : Nat → Operation
  fetchResult : String → FetchResponse
  decode : String → String
  createObjectURL : String → String
  apiKey : String

/-- Outcome of a `generateVideo` run. -/
inductive GVOutcome where
  | ok (objectUrl : String) (blob : String) (uri : String) (video : VideoObj)
  | error (msg : String)
  | diverge
deriving DecidableEq, Repr

/-- Result of the poll loop: the final (completed) operation handle, the
number of `getVideosOperation` re-queries performed, and the wait (ms)
preceding each re-query. -/
structure PollOutcome where
  finalOp : Operation
  polls : Nat
  waitsMs : List Nat
deriving Repr

/-- The `while (!operation.done)` loop: each iteration waits 10000 ms, then
re-queries and rebinds the local operation handle.  `fuel` bounds the
unbounded source loop; `none` models non-termination within the bound. -/
def pollLoop (env : Env) : Nat → Operation → Nat → List Nat → Option PollOutcome
  | fuel, operation, count, waits =>
    if operation.done then some ⟨operation, count, waits⟩
    else
      match fuel with
      | 0 => none
      | fuel' + 1 =>
          pollLoop env fuel' (env.pollResults count) (count + 1) (waits ++ [10000])

/-- The post-loop part of `generateVideo`: response validation, URI
extraction, asset fetch, error reporting.  Returns the outcome together with
the number of transport fetches performed. -/
def finishAfterPoll (env : Env) (operation : Operation) : GVOutcome × Nat :=
  match operation.response with
  | none => (GVOutcome.error "No videos generated.", 0)
  | some resp =>
    match resp.generatedVideos with
    | none => (GVOutcome.error "No videos were generated.", 0)
    | some videos =>
      match videos with
      | [] => (GVOutcome.error "No videos were generated.", 0)
      | firstVideo :: _ =>
        match firstVideo.video with
        | none => (GVOutcome.error "Generated video is missing a URI.", 0)
        | some videoObject =>
          match videoObject.uri with
          | none => (GVOutcome.error "Generated video is missing a URI.", 0)
          | some uriStr =>
            if uriStr = "" then (GVOutcome.error "Generated video is missing a URI.", 0)
            else
              let url := env.decode uriStr
              let res := env.fetchResult (url ++ "&key=" ++ env.apiKey)
              if res.ok then
                let videoBlob := res.blobData
                let objectUrl := env.createObjectURL videoBlob
                (GVOutcome.ok objectUrl videoBlob url videoObject, 1)
              else
                (GVOutcome.error ("Failed to fetch video: " ++ toString res.status ++
                  " " ++ res.statusText), 1)

/-- A whole `generateVideo` run: its outcome, the number of poll re-queries,
the wait durations, and the number of asset fetches. -/
structure GenerateVideoRun where
  outcome : GVOutcome
  polls : Nat
  waitsMs : List Nat
  fetches : Nat
deriving Repr

/-- `generateVideo` against the oracle `env`, with `fuel` bounding the
source's unbounded poll loop. -/
def generateVideo (env : Env) (fuel : Nat) (params : GenerateVideoParams) :
    GenerateVideoRun :=
  let _finalPrompt := constructPrompt params
  match pollLoop env fuel env.submitResult 0 [] with
  | none => ⟨GVOutcome.diverge, fuel, List.replicate fuel 10000, 0⟩
  | some po =>
    let r := finishAfterPoll env po.finalOp
    ⟨r.1, po.polls, po.waitsMs, r.2⟩

/-! ### Concrete fixtures -/

/-- A sample uploaded image. -/
def exImage : ImageFile := ⟨"a.png", "image/png", "QUJD"⟩

/-- A second sample uploaded image. -/
def exImageB : ImageFile := ⟨"b.png", "image/png", "REVG"⟩

/-- A representative fully-filled request. -/
def exParams : GenerateVideoParams :=
  ⟨"Laptop Stand", "- Portable\n- Sturdy", "remote workers", VideoStyle.MODERN,
    [exImage], VeoModel.VEO, AspectRatio.LANDSCAPE, Resolution.P720⟩

/-- A request whose key-features field is whitespace-only. -/
def exParamsWS : GenerateVideoParams :=
  ⟨"X", " ", "", VideoStyle.MODERN, [], VeoModel.VEO, AspectRatio.LANDSCAPE,
    Resolution.P720⟩

/-- A request with an empty target audience. -/
def exParamsNoAud : GenerateVideoParams :=
  ⟨"X", "- A", "", VideoStyle.MODERN, [], VeoModel.VEO, AspectRatio.LANDSCAPE,
    Resolution.P720⟩

/-- Same four prompt-relevant fields as `exParams`, all other fields changed. -/
def exParamsAlt : GenerateVideoParams :=
  ⟨"Laptop Stand", "- Portable\n- Sturdy", "remote workers", VideoStyle.MODERN,
    [], VeoModel.VEO_FAST, AspectRatio.PORTRAIT, Resolution.P1080⟩

/-- A sample retrieval URI. -/
def exURI : String := "https://video.example/file?alt=media"

/-- An operation that is still running. -/
def exOpPending : Operation := ⟨false, none⟩

/-- A completed operation carrying one valid video descriptor. -/
def exOpDone : Operation := ⟨true, some ⟨some [⟨some ⟨some exURI⟩⟩]⟩⟩

/-- A completed operation whose descriptor list is empty. -/
def exOpEmpty : Operation := ⟨true, some ⟨some []⟩⟩

/-- A full list of six images. -/
def exSix : List ImageFile := List.replicate 6 exImage

/-- Oracle for the happy path: submit pending, first re-query pending, second
re-query complete, fetch succeeds. -/
def exEnvC4 : Env :=
  ⟨exOpPending, fun n => if n = 1 then exOpDone else exOpPending,
    fun _ => ⟨true, 200, "OK", "BYTES"⟩, fun s => s, fun s => "blob:" ++ s, "KEY"⟩

/-- Oracle whose submit call immediately returns a completed operation with an
empty descriptor list. -/
def exEnvC5 : Env :=
  ⟨exOpEmpty, fun _ => exOpEmpty, fun _ => ⟨true, 200, "OK", "BYTES"⟩,
    fun s => s, fun s => "blob:" ++ s, "KEY"⟩

/-- Oracle whose submit call immediately completes with a valid descriptor but
whose transport fetch fails with 404. -/
def exEnvC6 : Env :=
  ⟨exOpDone, fun _ => exOpDone, fun _ => ⟨false, 404, "Not Found", ""⟩,
    fun s => s, fun s => "blob:" ++ s, "KEY"⟩

/-! ### Helper lemmas -/

/-- The prompt always decomposes into its four blocks in fixed order. -/
theorem prompt_decomp (params : GenerateVideoParams) :
    constructPrompt params =
      openingSentence params ++ audiencePart params ++ featuresPart params ++
        closingPart := by
  unfold constructPrompt openingSentence audiencePart featuresPart closingPart
    audienceSentence featuresBlock
  simp [String.append_assoc]

/-! ### Claim theorems -/

/-- Claim C1 (corrected): the key-features block (lead-in sentence plus the
trimmed, blank-dropped, rejoined feature lines) appears in the prompt exactly
when `keyFeatures` is non-empty BEFORE trimming — JS truthiness tests the raw
string, so a whitespace-only field still produces the lead-in sentence with an
empty feature list. -/
theorem C1_features_block_iff_nonempty (params : GenerateVideoParams) :
    constructPrompt params =
      openingSentence params ++ audiencePart params ++
        (if params.keyFeatures = "" then ""
         else featuresBlock params.keyFeatures) ++ closingPart := by
  rw [prompt_decomp]
  by_cases h : params.keyFeatures = "" <;> simp [featuresPart, h]

set_option maxRecDepth 20000 in
/-- Claim C1, counterexample to the claim as stated: with a whitespace-only
`keyFeatures` field (trim is empty) the prompt still contains the features
lead-in sentence, so the block is not governed by emptiness-after-trimming. -/
theorem C1_counterexample :
    jsTrim exParamsWS.keyFeatures = "" ∧
    constructPrompt exParamsWS =
      openingSentence exParamsWS ++
        "Showcase the following key features:\n\n\n" ++ closingPart :=
  ⟨by decide, by decide⟩

/-- Claim C3: the prompt is exactly the opening sentence
"Create a {style lowercased}, 15-second e-commerce product video for the
'{productName}'." followed, in fixed order, by the conditional audience
sentence, the conditional features block, and the two closing guidance
sentences. -/
theorem C3_prompt_structure (params : GenerateVideoParams) :
    constructPrompt params =
      ("Create a " ++ jsToLower params.videoStyle.value ++
        ", 15-second e-commerce product video for the '" ++ params.productName ++
        "'.\n\n") ++ audiencePart params ++ featuresPart params ++ closingPart :=
  prompt_decomp params

/-- Claim C7: starting from an empty target audience, setting it to any
non-empty string inserts exactly the single audience sentence at its fixed
position between the opening sentence and the features block, changing no
other text. -/
theorem C7_audience_insertion (params : GenerateVideoParams) (a : String)
    (h0 : params.targetAudience = "") (ha : a ≠ "") :
    constructPrompt { params with targetAudience := a } =
      openingSentence params ++ audienceSentence a ++ featuresPart params ++
        closingPart ∧
    constructPrompt params =
      openingSentence params ++ featuresPart params ++ closingPart := by
  obtain ⟨pn, kf, ta, vs, imgs, m, ar, r⟩ := params
  simp only at h0
  subst h0
  constructor
  · rw [prompt_decomp]
    simp [audiencePart, openingSentence, featuresPart, featuresBlock, ha]
  · rw [prompt_decomp]
    simp [audiencePart]

/-- Claim C7, witness at a concrete request and audience string. -/
theorem C7_audience_insertion_witness :
    constructPrompt { exParamsNoAud with targetAudience := "students" } =
      openingSentence exParamsNoAud ++ audienceSentence "students" ++
        featuresPart exParamsNoAud ++ closingPart ∧
    constructPrompt exParamsNoAud =
      openingSentence exParamsNoAud ++ featuresPart exParamsNoAud ++
        closingPart :=
  C7_audience_insertion exParamsNoAud "students" rfl (by decide)

/-- Claim C10: the prompt depends only on `productName`, `keyFeatures`,
`targetAudience` and `videoStyle`; two requests agreeing on those four fields
yield identical prompts whatever their images, model, aspect ratio or
resolution. -/
theorem C10_prompt_depends_on_four_fields (p q : GenerateVideoParams)
    (h1 : p.productName = q.productName) (h2 : p.keyFeatures = q.keyFeatures)
    (h3 : p.targetAudience = q.targetAudience)
    (h4 : p.videoStyle = q.videoStyle) :
    constructPrompt p = constructPrompt q := by
  simp only [constructPrompt, h1, h2, h3, h4]

/-- Claim C10, witness: two concrete requests differing in images, model,
aspect ratio and resolution produce the same prompt. -/
theorem C10_prompt_depends_on_four_fields_witness :
    constructPrompt exParams = constructPrompt exParamsAlt :=
  C10_prompt_depends_on_four_fields exParams exParamsAlt rfl rfl rfl rfl

/-- Claim C2: submission is disabled exactly when the trimmed product name is
blank or the image list is empty, and the tooltip message follows the three
cases (both missing / name missing / images missing), being empty when
submission is enabled. -/
theorem C2_submit_gating (productName : String) (productImages : List ImageFile) :
    (isSubmitDisabled productName productImages = true ↔
      (jsTrim productName = "" ∨ productImages = [])) ∧
    (jsTrim productName = "" → productImages = [] →
      tooltipText productName productImages =
        "Please enter a product name and upload at least one image.") ∧
    (jsTrim productName = "" → productImages ≠ [] →
      tooltipText productName productImages = "Please enter a product name.") ∧
    (jsTrim productName ≠ "" → productImages = [] →
      tooltipText productName productImages =
        "Please upload at least one product image.") ∧
    (jsTrim productName ≠ "" → productImages ≠ [] →
      isSubmitDisabled productName productImages = false ∧
      tooltipText productName productImages = "") := by
  refine ⟨?_, ?_, ?_, ?_, ?_⟩
  · simp [isSubmitDisabled, List.length_eq_zero]
  · intro h1 h2
    subst h2
    simp [tooltipText, isSubmitDisabled, h1]
  · intro h1 h2
    simp [tooltipText, isSubmitDisabled, h1, List.length_eq_zero, h2]
  · intro h1 h2
    subst h2
    simp [tooltipText, isSubmitDisabled, h1]
  · intro h1 h2
    simp [tooltipText, isSubmitDisabled, h1, List.length_eq_zero, h2]

/-- Claim C2, witness at the four concrete form states. -/
theorem C2_submit_gating_witness :
    tooltipText "" [] =
      "Please enter a product name and upload at least one image." ∧
    tooltipText "" [exImage] = "Please enter a product name." ∧
    tooltipText "Stand" [] = "Please upload at least one product image." ∧
    (isSubmitDisabled "Stand" [exImage] = false ∧
      tooltipText "Stand" [exImage] = "") :=
  ⟨(C2_submit_gating "" []).2.1 rfl rfl,
   (C2_submit_gating "" [exImage]).2.2.1 rfl (List.cons_ne_nil _ _),
   (C2_submit_gating "Stand" []).2.2.2.1 (by decide) rfl,
   (C2_submit_gating "Stand" [exImage]).2.2.2.2 (by decide) (List.cons_ne_nil _ _)⟩

/-- Removal never lengthens the image list. -/
theorem removeImage_length_le (imgs : List ImageFile) (index : Nat) :
    (removeImage imgs index).length ≤ imgs.length := by
  unfold removeImage
  simp only [List.length_map]
  exact (List.length_filter_le _ _).trans (by simp)

/-- Claim C8: starting at or below the six-image cap, every Collector
operation keeps the list at or below six entries, and at exactly six images
the add operation is unavailable (the list is unchanged). -/
theorem C8_capacity_invariant (imgs : List ImageFile) (h : imgs.length ≤ 6) :
    (∀ op, (collectorStep imgs op).length ≤ 6) ∧
    (imgs.length = 6 → ∀ img, collectorStep imgs (CollectorOp.add img) = imgs) := by
  constructor
  · intro op
    cases op with
    | add img =>
      by_cases hlt : imgs.length < 6
      · simp only [collectorStep, hlt, if_true, List.length_append,
          List.length_singleton]
        omega
      · simpa [collectorStep, hlt] using h
    | remove index =>
      exact le_trans (removeImage_length_le imgs index) h
  · intro h6 img
    simp [collectorStep, h6]

/-- Claim C8, witness at a full six-image list. -/
theorem C8_capacity_invariant_witness :
    collectorStep exSix (CollectorOp.add exImageB) = exSix ∧
    (collectorStep exSix (CollectorOp.remove 0)).length ≤ 6 :=
  ⟨(C8_capacity_invariant exSix (by decide)).2 (by decide) exImageB,
   (C8_capacity_invariant exSix (by decide)).1 (CollectorOp.remove 0)⟩

/-- Indices in `enumFrom n l` all exceed any `m < n`, so filtering them away
keeps the whole list. -/
theorem filter_ne_enumFrom {α : Type} (l : List α) (n m : Nat) (h : m < n) :
    (List.enumFrom n l).filter (fun p => p.1 ≠ m) = List.enumFrom n l := by
  induction l generalizing n with
  | nil => rfl
  | cons x xs ih =>
    rw [List.enumFrom_cons,
      List.filter_cons_of_pos (by simpa using Nat.ne_of_gt h),
      ih (n + 1) (Nat.lt_succ_of_lt h)]

/-- Filtering index `n + i` out of `enumFrom n l` and dropping the indices is
exactly `take i ++ drop (i+1)`. -/
theorem enumFrom_filter_ne_map_snd {α : Type} (l : List α) (n i : Nat) :
    ((List.enumFrom n l).filter (fun p => p.1 ≠ n + i)).map Prod.snd =
      l.take i ++ l.drop (i + 1) := by
  induction l generalizing n i with
  | nil => simp
  | cons x xs ih =>
    cases i with
    | zero =>
      rw [List.enumFrom_cons,
        List.filter_cons_of_neg (by simp),
        filter_ne_enumFrom xs (n + 1) (n + 0) (by omega),
        List.enumFrom_map_snd]
      simp
    | succ k =>
      rw [List.enumFrom_cons,
        List.filter_cons_of_pos (by simp),
        List.map_cons]
      simp only [show n + (k + 1) = (n + 1) + k by omega]
      rw [ih (n + 1) k]
      simp

/-- Claim C9: removing at a valid index removes exactly that entry and keeps
the remaining entries in their original relative order. -/
theorem C9_remove_exact (imgs : List ImageFile) (i : Nat)
    (h : i < imgs.length) :
    removeImage imgs i = imgs.take i ++ imgs.drop (i + 1) := by
  have hmain := enumFrom_filter_ne_map_snd imgs 0 i
  simp only [Nat.zero_add] at hmain
  simpa [removeImage, List.enum_eq_enumFrom] using hmain

/-- Claim C9, witness at a concrete two-image list. -/
theorem C9_remove_exact_witness :
    removeImage [exImage, exImageB] 0 =
      ([exImage, exImageB].take 0) ++ ([exImage, exImageB].drop 1) :=
  C9_remove_exact [exImage, exImageB] 0 (by decide)

/-- The poll loop exits immediately on a completed operation. -/
theorem pollLoop_done (env : Env) (fuel : Nat) (op : Operation) (count : Nat)
    (waits : List Nat) (h : op.done = true) :
    pollLoop env fuel op count waits = some ⟨op, count, waits⟩ := by
  rw [pollLoop.eq_def]
  simp [h]

/-- One iteration of the poll loop on an incomplete operation: wait 10000 ms,
re-query, rebind the handle. -/
theorem pollLoop_step (env : Env) (fuel : Nat) (op : Operation) (count : Nat)
    (waits : List Nat) (h : op.done = false) :
    pollLoop env (fuel + 1) op count waits =
      pollLoop env fuel (env.pollResults count) (count + 1) (waits ++ [10000]) := by
  rw [pollLoop.eq_def]
  simp [h]

/-- Claim C4: when the submit call returns an incomplete operation and the
first and second status re-queries return an incomplete and then a complete
operation carrying one valid video descriptor, `generateVideo` performs
exactly two poll re-queries, each preceded by the fixed 10000 ms wait, and
returns the success result whose `uri` is the decoded descriptor URI. -/
theorem C4_polls_twice (env : Env) (fuel : Nat) (params : GenerateVideoParams)
    (u : String) (hf : 2 ≤ fuel)
    (hs : env.submitResult.done = false)
    (h0 : (env.pollResults 0).done = false)
    (h1 : env.pollResults 1 = ⟨true, some ⟨some [⟨some ⟨some u⟩⟩]⟩⟩)
    (hu : u ≠ "")
    (hok : (env.fetchResult (env.decode u ++ "&key=" ++ env.apiKey)).ok = true) :
    (generateVideo env fuel params).polls = 2 ∧
    (generateVideo env fuel params).waitsMs = [10000, 10000] ∧
    (generateVideo env fuel params).outcome =
      GVOutcome.ok
        (env.createObjectURL
          (env.fetchResult (env.decode u ++ "&key=" ++ env.apiKey)).blobData)
        ((env.fetchResult (env.decode u ++ "&key=" ++ env.apiKey)).blobData)
        (env.decode u) ⟨some u⟩ := by
  obtain ⟨f, rfl⟩ : ∃ f, fuel = f + 2 := ⟨fuel - 2, by omega⟩
  have hp : pollLoop env (f + 2) env.submitResult 0 [] =
      some ⟨env.pollResults 1, 2, [10000, 10000]⟩ := by
    rw [show f + 2 = (f + 1) + 1 from rfl,
      pollLoop_step env (f + 1) env.submitResult 0 [] hs,
      pollLoop_step env f (env.pollResults 0) 1 ([] ++ [10000]) h0,
      pollLoop_done env f (env.pollResults 1) 2 (([] ++ [10000]) ++ [10000])
        (by rw [h1])]
    rfl
  have hfin : finishAfterPoll env (env.pollResults 1) =
      (GVOutcome.ok
        (env.createObjectURL
          (env.fetchResult (env.decode u ++ "&key=" ++ env.apiKey)).blobData)
        ((env.fetchResult (env.decode u ++ "&key=" ++ env.apiKey)).blobData)
        (env.decode u) ⟨some u⟩, 1) := by
    rw [h1]
    simp [finishAfterPoll, hu, hok]
  refine ⟨?_, ?_, ?_⟩ <;> simp [generateVideo, hp, hfin]

/-- Claim C4, witness against a concrete oracle. -/
theorem C4_polls_twice_witness :
    (generateVideo exEnvC4 5 exParams).polls = 2 ∧
    (generateVideo exEnvC4 5 exParams).waitsMs = [10000, 10000] ∧
    (generateVideo exEnvC4 5 exParams).outcome =
      GVOutcome.ok
        (exEnvC4.createObjectURL
          (exEnvC4.fetchResult
            (exEnvC4.decode exURI ++ "&key=" ++ exEnvC4.apiKey)).blobData)
        ((exEnvC4.fetchResult
          (exEnvC4.decode exURI ++ "&key=" ++ exEnvC4.apiKey)).blobData)
        (exEnvC4.decode exURI) ⟨some exURI⟩ :=
  C4_polls_twice exEnvC4 5 exParams exURI (by omega) rfl rfl rfl (by decide) rfl

/-- Claim C5: if the poll loop ends on an operation whose response is present
but whose generated-video list is absent or empty, `generateVideo` rejects
with the "No videos were generated." error and performs no asset fetch. -/
theorem C5_empty_result (env : Env) (fuel : Nat) (params : GenerateVideoParams)
    (po : PollOutcome) (resp : OperationResponse)
    (hpoll : pollLoop env fuel env.submitResult 0 [] = some po)
    (hresp : po.finalOp.response = some resp)
    (hempty : resp.generatedVideos = none ∨ resp.generatedVideos = some []) :
    (generateVideo env fuel params).outcome =
      GVOutcome.error "No videos were generated." ∧
    (generateVideo env fuel params).fetches = 0 := by
  have hfin : finishAfterPoll env po.finalOp =
      (GVOutcome.error "No videos were generated.", 0) := by
    rcases hempty with h | h <;> simp [finishAfterPoll, hresp, h]
  constructor <;> simp [generateVideo, hpoll, hfin]

/-- Claim C5, witness against a concrete oracle whose completed operation has
an empty descriptor list. -/
theorem C5_empty_result_witness :
    (generateVideo exEnvC5 3 exParams).outcome =
      GVOutcome.error "No videos were generated." ∧
    (generateVideo exEnvC5 3 exParams).fetches = 0 :=
  C5_empty_result exEnvC5 3 exParams ⟨exOpEmpty, 0, []⟩ ⟨some []⟩
    (pollLoop_done exEnvC5 3 exEnvC5.submitResult 0 [] rfl) rfl (Or.inr rfl)

/-- Claim C6: after a successful submit and poll whose first descriptor
carries a non-empty URI, a non-success transport fetch makes `generateVideo`
reject with an error embedding the response's status code and status text. -/
theorem C6_fetch_failure (env : Env) (fuel : Nat) (params : GenerateVideoParams)
    (po : PollOutcome) (resp : OperationResponse) (gv : GeneratedVideo)
    (rest : List GeneratedVideo) (vo : VideoObj) (u : String)
    (hpoll : pollLoop env fuel env.submitResult 0 [] = some po)
    (hresp : po.finalOp.response = some resp)
    (hvids : resp.generatedVideos = some (gv :: rest))
    (hv : gv.video = some vo)
    (huri : vo.uri = some u)
    (hne : u ≠ "")
    (hbad : (env.fetchResult (env.decode u ++ "&key=" ++ env.apiKey)).ok = false) :
    (generateVideo env fuel params).outcome =
      GVOutcome.error ("Failed to fetch video: " ++
        toString (env.fetchResult (env.decode u ++ "&key=" ++ env.apiKey)).status ++
        " " ++
        (env.fetchResult (env.decode u ++ "&key=" ++ env.apiKey)).statusText) := by
  have hfin : finishAfterPoll env po.finalOp =
      (GVOutcome.error ("Failed to fetch video: " ++
        toString (env.fetchResult (env.decode u ++ "&key=" ++ env.apiKey)).status ++
        " " ++
        (env.fetchResult (env.decode u ++ "&key=" ++ env.apiKey)).statusText), 1) := by
    simp [finishAfterPoll, hresp, hvids, hv, huri, hne, hbad]
  simp [generateVideo, hpoll, hfin]

/-- Claim C6, witness against a concrete oracle whose fetch returns 404. -/
theorem C6_fetch_failure_witness :
    (generateVideo exEnvC6 3 exParams).outcome =
      GVOutcome.error ("Failed to fetch video: " ++
        toString (exEnvC6.fetchResult
          (exEnvC6.decode exURI ++ "&key=" ++ exEnvC6.apiKey)).status ++
        " " ++
        (exEnvC6.fetchResult
          (exEnvC6.decode exURI ++ "&key=" ++ exEnvC6.apiKey)).statusText) :=
  C6_fetch_failure exEnvC6 3 exParams ⟨exOpDone, 0, []⟩ ⟨some [⟨some ⟨some exURI⟩⟩]⟩
    ⟨some ⟨some exURI⟩⟩ [] ⟨some exURI⟩ exURI
    (pollLoop_done exEnvC6 3 exEnvC6.submitResult 0 [] rfl) rfl rfl rfl rfl
    (by decide) rfl

end EcomVideo
